import Mathlib

/-!
A verification development for the webhook ingestion and verification
pipeline of the `whatsapp-go` library (file `webhook.go`).

Modelling conventions:
* Go byte slices (`[]byte`) are `List Nat`, each entry a byte value.
* Go strings are Lean `String`s; `[]byte(s)` conversions of strings that
  are compared byte-wise coincide with `String` equality because UTF-8
  encoding is injective.  The HMAC key `[]byte(wh.AppSecret)` is modelled
  by storing the secret directly as its byte list.
* `http.Header.Get` returns `""` for an absent header, so a request's
  signature headers are modelled as two `String` fields defaulting to `""`.
* `crypto/sha256`, `crypto/sha1`, `crypto/hmac` and `encoding/hex` are
  modelled by executable Lean implementations of FIPS 180-4 SHA-256,
  SHA-1, RFC 2104 HMAC and lowercase hex encoding.
* `encoding/json` unmarshalling is modelled on a JSON value tree
  (`Json` below), per the documented semantics of `json.Unmarshal` for
  the struct/slice/pointer/string/int/bool shapes used by the webhook
  data model.  JSON numbers are kept as decimal (integer part, has a
  fractional part) data; no float arithmetic is performed on them.
-/

/-! ### 32-bit arithmetic helpers -/

/-- Truncate to 32 bits, the word size of SHA-1 and SHA-256. -/
def u32 (x : Nat) : Nat := x % 4294967296

/-- Rotate a 32-bit word right by `n`. -/
def rotr32 (n x : Nat) : Nat := u32 ((x >>> n) ||| (x <<< (32 - n)))

/-- Rotate a 32-bit word left by `n`. -/
def rotl32 (n x : Nat) : Nat := u32 ((x <<< n) ||| (x >>> (32 - n)))

/-- `k` big-endian bytes of `n`. -/
def beBytes : Nat → Nat → List Nat
  | 0, _ => []
  | k+1, n => beBytes k (n / 256) ++ [n % 256]

/-- Group bytes into big-endian 32-bit words. -/
def toWords32 : List Nat → List Nat
  | b0 :: b1 :: b2 :: b3 :: rest =>
      (b0 * 16777216 + b1 * 65536 + b2 * 256 + b3) :: toWords32 rest
  | _ => []

/-- Merkle-Damgard padding shared by SHA-1 and SHA-256: append `0x80`,
zero bytes to 56 mod 64, then the 8-byte big-endian bit length. -/
def shaPad (msg : List Nat) : List Nat :=
  msg ++ 128 :: List.replicate ((119 - msg.length % 64) % 64) 0 ++ beBytes 8 (msg.length * 8)

/-- Split into 64-byte blocks (fuel-driven so that it reduces in the kernel). -/
def chunks64Aux : Nat → List Nat → List (List Nat)
  | 0, _ => []
  | _, [] => []
  | n+1, l => l.take 64 :: chunks64Aux n (l.drop 64)

/-- Split a byte list into 64-byte blocks. -/
def chunks64 (l : List Nat) : List (List Nat) := chunks64Aux l.length l

/-- Apply `f` to `w`, `n` times. -/
def iterApp (f : List Nat → List Nat) : Nat → List Nat → List Nat
  | 0, w => w
  | n+1, w => iterApp f n (f w)

/-! ### SHA-256 (FIPS 180-4), modelling Go `crypto/sha256` -/

/-- The 64 SHA-256 round constants. -/
def sha256K : List Nat :=
  [1116352408, 1899447441, 3049323471, 3921009573, 961987163, 1508970993,
   2453635748, 2870763221, 3624381080, 310598401, 607225278, 1426881987,
   1925078388, 2162078206, 2614888103, 3248222580, 3835390401, 4022224774,
   264347078, 604807628, 770255983, 1249150122, 1555081692, 1996064986,
   2554220882, 2821834349, 2952996808, 3210313671, 3336571891, 3584528711,
   113926993, 338241895, 666307205, 773529912, 1294757372, 1396182291,
   1695183700, 1986661051, 2177026350, 2456956037, 2730485921, 2820302411,
   3259730800, 3345764771, 3516065817, 3600352804, 4094571909, 275423344,
   430227734, 506948616, 659060556, 883997877, 958139571, 1322822218,
   1537002063, 1747873779, 1955562222, 2024104815, 2227730452, 2361852424,
   2428436474, 2756734187, 3204031479, 3329325298]

/-- The SHA-256 initial hash state. -/
def sha256H0 : List Nat :=
  [1779033703, 3144134277, 1013904242, 2773480762,
   1359893119, 2600822924, 528734635, 1541459225]

/-- One message-schedule extension step: append word `w[t]` computed from
`w[t-2]`, `w[t-7]`, `w[t-15]`, `w[t-16]`. -/
def sha256ExtStep (w : List Nat) : List Nat :=
  let t := w.length
  let wa := w.getD (t - 2) 0
  let wb := w.getD (t - 7) 0
  let wc := w.getD (t - 15) 0
  let wd := w.getD (t - 16) 0
  let s0 := (rotr32 7 wc) ^^^ (rotr32 18 wc) ^^^ (wc >>> 3)
  let s1 := (rotr32 17 wa) ^^^ (rotr32 19 wa) ^^^ (wa >>> 10)
  w ++ [u32 (wd + s0 + wb + s1)]

/-- The 64-word SHA-256 message schedule of a 64-byte block. -/
def sha256Schedule (block : List Nat) : List Nat :=
  iterApp sha256ExtStep 48 (toWords32 block)

/-- One SHA-256 round on the state `[a,b,c,d,e,f,g,h]`. -/
def sha256Round (st : List Nat) (kw : Nat × Nat) : List Nat :=
  match st with
  | [a, b, c, d, e, f, g, h] =>
    let s1 := (rotr32 6 e) ^^^ (rotr32 11 e) ^^^ (rotr32 25 e)
    let ch := (e &&& f) ^^^ ((e ^^^ 4294967295) &&& g)
    let temp1 := u32 (h + s1 + ch + kw.1 + kw.2)
    let s0 := (rotr32 2 a) ^^^ (rotr32 13 a) ^^^ (rotr32 22 a)
    let maj := (a &&& b) ^^^ (a &&& c) ^^^ (b &&& c)
    let temp2 := u32 (s0 + maj)
    [u32 (temp1 + temp2), a, b, c, u32 (d + temp1), e, f, g]
  | other => other

/-- SHA-256 compression of one 64-byte block into the hash state. -/
def sha256Compress (h : List Nat) (block : List Nat) : List Nat :=
  let w := sha256Schedule block
  let st := (sha256K.zip w).foldl sha256Round h
  List.zipWith (fun x y => u32 (x + y)) h st

/-- SHA-256 of a byte list, as 32 bytes. -/
def sha256 (msg : List Nat) : List Nat :=
  let h := (chunks64 (shaPad msg)).foldl sha256Compress sha256H0
  (h.map fun x => beBytes 4 x).flatten

/-! ### SHA-1 (FIPS 180-4), modelling Go `crypto/sha1` -/

/-- The SHA-1 initial hash state. -/
def sha1H0 : List Nat := [1732584193, 4023233417, 2562383102, 271733878, 3285377520]

/-- One SHA-1 message-schedule extension step. -/
def sha1ExtStep (w : List Nat) : List Nat :=
  let t := w.length
  let x := (w.getD (t-3) 0) ^^^ (w.getD (t-8) 0) ^^^ (w.getD (t-14) 0) ^^^ (w.getD (t-16) 0)
  w ++ [rotl32 1 x]

/-- One SHA-1 round; `tw` is the round index paired with the schedule word. -/
def sha1Round (st : List Nat) (tw : Nat × Nat) : List Nat :=
  match st with
  | [a, b, c, d, e] =>
    let fk : Nat × Nat :=
      if tw.1 < 20 then ((b &&& c) ||| ((b ^^^ 4294967295) &&& d), 1518500249)
      else if tw.1 < 40 then (b ^^^ c ^^^ d, 1859775393)
      else if tw.1 < 60 then ((b &&& c) ||| (b &&& d) ||| (c &&& d), 2400959708)
      else (b ^^^ c ^^^ d, 3395469782)
    let temp := u32 ((rotl32 5 a) + fk.1 + e + fk.2 + tw.2)
    [temp, a, rotl32 30 b, c, d]
  | other => other

/-- SHA-1 compression of one 64-byte block into the hash state. -/
def sha1Compress (h : List Nat) (block : List Nat) : List Nat :=
  let w := iterApp sha1ExtStep 64 (toWords32 block)
  let st := ((List.range 80).zip w).foldl sha1Round h
  List.zipWith (fun x y => u32 (x + y)) h st

/-- SHA-1 of a byte list, as 20 bytes. -/
def sha1 (msg : List Nat) : List Nat :=
  let h := (chunks64 (shaPad msg)).foldl sha1Compress sha1H0
  (h.map fun x => beBytes 4 x).flatten

/-! ### HMAC (RFC 2104) and hex encoding, modelling `crypto/hmac`,
`encoding/hex` -/

/-- HMAC with block size 64 (the block size of both SHA-1 and SHA-256),
modelling `hmac.New(hashFunc, key)` followed by `Write(msg)` and `Sum(nil)`. -/
def hmacDigest (hashF : List Nat → List Nat) (key msg : List Nat) : List Nat :=
  let k0 := if key.length > 64 then hashF key else key
  let k := k0 ++ List.replicate (64 - k0.length) 0
  let ikp := k.map fun b => b ^^^ 54
  let okp := k.map fun b => b ^^^ 92
  hashF (okp ++ hashF (ikp ++ msg))

/-- Lowercase hex digit, as in Go `encoding/hex`. -/
def hexDigit (n : Nat) : Char := Char.ofNat (if n < 10 then 48 + n else 87 + n)

/-- Lowercase hex string of a byte list, modelling `hex.EncodeToString`. -/
def hexOfBytes (bs : List Nat) : String :=
  String.mk ((bs.map fun b => [hexDigit (b / 16), hexDigit (b % 16)]).flatten)

/-- `hex.EncodeToString(hmac-SHA256(key, msg))`: what `verifySignatureImpl`
computes when handed `sha256.New`. -/
def hmacSha256Hex (key msg : List Nat) : String := hexOfBytes (hmacDigest sha256 key msg)

/-- `hex.EncodeToString(hmac-SHA1(key, msg))`: what `verifySignatureImpl`
computes when handed `sha1.New`. -/
def hmacSha1Hex (key msg : List Nat) : String := hexOfBytes (hmacDigest sha1 key msg)

/-! ### Webhook payload data model (`webhook.go` type declarations)

Go `[]T` slice fields are `Option (List T)`: `none` is a nil slice (the
field was absent or `null` in the JSON), `some []` is a present, empty
slice.  Go `*T` pointer fields are `Option T`.  Go `float64` fields keep
the decimal JSON number data (`JsonNumber`); no float arithmetic occurs. -/

/-- A JSON number as decoded text: integer part and whether a fractional
part or exponent was present.  Stands in for Go `float64` fields. -/
structure JsonNumber where
  ip : Int
  hasFrac : Bool
deriving Inhabited, DecidableEq

/-- Go type `MessagingProduct string`. -/
abbrev MessagingProduct := String

/-- Go type `MessageType string`. -/
abbrev MessageType := String

/-- Go constant `MessageTypeText`. -/
def MessageTypeText : MessageType := "text"

/-- Go constant `MessageTypeImage`. -/
def MessageTypeImage : MessageType := "image"

/-- Go constant `MessageTypeAudio`. -/
def MessageTypeAudio : MessageType := "audio"

/-- Go constant `MessageTypeVideo`. -/
def MessageTypeVideo : MessageType := "video"

/-- Go constant `MessageTypeDocument`. -/
def MessageTypeDocument : MessageType := "document"

/-- Go constant `MessageTypeSticker`. -/
def MessageTypeSticker : MessageType := "sticker"

/-- Go constant `MessageTypeLocation`. -/
def MessageTypeLocation : MessageType := "location"

/-- Go constant `MessageTypeContacts`. -/
def MessageTypeContacts : MessageType := "contacts"

/-- Go constant `MessageTypeButton`. -/
def MessageTypeButton : MessageType := "button"

/-- Go constant `MessageTypeInteractive`. -/
def MessageTypeInteractive : MessageType := "interactive"

/-- Go constant `MessageTypeOrder`. -/
def MessageTypeOrder : MessageType := "order"

/-- Go constant `MessageTypeSystem`. -/
def MessageTypeSystem : MessageType := "system"

/-- Go constant `MessageTypeReaction`. -/
def MessageTypeReaction : MessageType := "reaction"

/-- Go constant `MessageTypeUnknown`. -/
def MessageTypeUnknown : MessageType := "unknown"

/-- Go constant `MessageTypeUnsupported`. -/
def MessageTypeUnsupported : MessageType := "unsupported"

/-- Go type `InteractiveType string`. -/
abbrev InteractiveType := String

/-- Go type `ContactAddressType string`. -/
abbrev ContactAddressType := String

/-- Go type `ContactEmailType string`. -/
abbrev ContactEmailType := String

/-- Go type `ContactPhoneType string`. -/
abbrev ContactPhoneType := String

/-- Go type `ContactURLType string`. -/
abbrev ContactURLType := String

/-- Go type `SystemMessageType string`. -/
abbrev SystemMessageType := String

/-- Go type `ReferralSourceType string`. -/
abbrev ReferralSourceType := String

/-- Go type `ReferralMediaType string`. -/
abbrev ReferralMediaType := String

/-- Go type `MessageStatus string`. -/
abbrev MessageStatus := String

/-- Go type `ConversationOriginType string`. -/
abbrev ConversationOriginType := String

/-- Go type `PricingModel string`. -/
abbrev PricingModel := String

/-- Go type `PricingCategory string`. -/
abbrev PricingCategory := String

/-- Go struct `WebhookMetadata`. -/
structure WebhookMetadata where
  DisplayPhoneNumber : String
  PhoneNumberID : String
deriving Inhabited, DecidableEq

/-- Go struct `WebhookProfile`. -/
structure WebhookProfile where
  Name : String
deriving Inhabited, DecidableEq

/-- Go struct `WebhookContact`. -/
structure WebhookContact where
  Profile : WebhookProfile
  WaID : String
deriving Inhabited, DecidableEq

/-- Go struct `WebhookReferredProduct`. -/
structure WebhookReferredProduct where
  CatalogID : String
  ProductRetailerID : String
deriving Inhabited, DecidableEq

/-- Go struct `WebhookMessageContext`. -/
structure WebhookMessageContext where
  From : String
  ID : String
  ReferredProduct : Option WebhookReferredProduct
  Forwarded : Bool
deriving Inhabited, DecidableEq

/-- Go struct `WebhookMessageText`. -/
structure WebhookMessageText where
  Body : String
deriving Inhabited, DecidableEq

/-- Go struct `WebhookMessageMedia`. -/
structure WebhookMessageMedia where
  Caption : String
  Filename : String
  ID : String
  MimeType : String
  SHA256 : String
deriving Inhabited, DecidableEq

/-- Go struct `WebhookMessageLocation`. -/
structure WebhookMessageLocation where
  Latitude : JsonNumber
  Longitude : JsonNumber
  Name : String
  Address : String
deriving Inhabited, DecidableEq

/-- Go struct `WebhookContactAddress`. -/
structure WebhookContactAddress where
  Street : String
  City : String
  State : String
  Zip : String
  Country : String
  CountryCode : String
  Type' : ContactAddressType
deriving Inhabited, DecidableEq

/-- Go struct `WebhookContactEmail`. -/
structure WebhookContactEmail where
  Email : String
  Type' : ContactEmailType
deriving Inhabited, DecidableEq

/-- Go struct `WebhookContactName`. -/
structure WebhookContactName where
  FormattedName : String
  FirstName : String
  LastName : String
  MiddleName : String
  Suffix : String
  Prefix : String
deriving Inhabited, DecidableEq

/-- Go struct `WebhookContactOrg`. -/
structure WebhookContactOrg where
  Company : String
  Department : String
  Title : String
deriving Inhabited, DecidableEq

/-- Go struct `WebhookContactPhone`. -/
structure WebhookContactPhone where
  Phone : String
  WaID : String
  Type' : ContactPhoneType
deriving Inhabited, DecidableEq

/-- Go struct `WebhookContactURL`. -/
structure WebhookContactURL where
  URL : String
  Type' : ContactURLType
deriving Inhabited, DecidableEq

/-- Go struct `WebhookMessageContact`. -/
structure WebhookMessageContact where
  Addresses : Option (List WebhookContactAddress)
  Birthday : String
  Emails : Option (List WebhookContactEmail)
  Name : Option WebhookContactName
  Org : Option WebhookContactOrg
  Phones : Option (List WebhookContactPhone)
  URLs : Option (List WebhookContactURL)
deriving Inhabited, DecidableEq

/-- Go struct `WebhookMessageButton`. -/
structure WebhookMessageButton where
  Text : String
  Payload : String
deriving Inhabited, DecidableEq

/-- Go struct `WebhookMessageInteractiveButton`. -/
structure WebhookMessageInteractiveButton where
  ID : String
  Title : String
deriving Inhabited, DecidableEq

/-- Go struct `WebhookMessageInteractiveListItem`. -/
structure WebhookMessageInteractiveListItem where
  ID : String
  Title : String
  Description : String
deriving Inhabited, DecidableEq

/-- Go struct `WebhookMessageInteractive`. -/
structure WebhookMessageInteractive where
  Type' : InteractiveType
  ButtonReply : Option WebhookMessageInteractiveButton
  ListReply : Option WebhookMessageInteractiveListItem
deriving Inhabited, DecidableEq

/-- Go struct `WebhookMessageOrderItem`. -/
structure WebhookMessageOrderItem where
  ProductRetailerID : String
  Quantity : String
  ItemPrice : String
  Currency : String
deriving Inhabited, DecidableEq

/-- Go struct `WebhookMessageOrder`. -/
structure WebhookMessageOrder where
  CatalogID : String
  ProductItems : Option (List WebhookMessageOrderItem)
  Text : String
deriving Inhabited, DecidableEq

/-- Go struct `WebhookMessageSystem`. -/
structure WebhookMessageSystem where
  Body : String
  NewWaID : String
  Type' : SystemMessageType
deriving Inhabited, DecidableEq

/-- Go struct `WebhookMessageReaction`. -/
structure WebhookMessageReaction where
  MessageID : String
  Emoji : String
deriving Inhabited, DecidableEq

/-- Go struct `WebhookMessageReferral`. -/
structure WebhookMessageReferral where
  SourceURL : String
  SourceID : String
  SourceType : ReferralSourceType
  Headline : String
  Body : String
  MediaType : ReferralMediaType
  ImageURL : String
  VideoURL : String
  ThumbnailURL : String
  CTWAClid : String
deriving Inhabited, DecidableEq

/-- Go struct `WebhookErrorData`. -/
structure WebhookErrorData where
  Details : String
deriving Inhabited, DecidableEq

/-- Go struct `WebhookError`. -/
structure WebhookError where
  Code : Int
  Title : String
  Message : String
  Details : String
  ErrorData : Option WebhookErrorData
  Href : String
deriving Inhabited, DecidableEq

/-- Go struct `WebhookMessage`. -/
structure WebhookMessage where
  From : String
  ID : String
  Timestamp : String
  Type' : MessageType
  Context : Option WebhookMessageContext
  Text : Option WebhookMessageText
  Image : Option WebhookMessageMedia
  Audio : Option WebhookMessageMedia
  Video : Option WebhookMessageMedia
  Document : Option WebhookMessageMedia
  Sticker : Option WebhookMessageMedia
  Location : Option WebhookMessageLocation
  Contacts : Option (List WebhookMessageContact)
  Button : Option WebhookMessageButton
  Interactive : Option WebhookMessageInteractive
  Order : Option WebhookMessageOrder
  System : Option WebhookMessageSystem
  Reaction : Option WebhookMessageReaction
  Referral : Option WebhookMessageReferral
  Errors : Option (List WebhookError)
deriving Inhabited, DecidableEq

/-- Go struct `WebhookConversationOrigin`. -/
structure WebhookConversationOrigin where
  Type' : ConversationOriginType
deriving Inhabited, DecidableEq

/-- Go struct `WebhookStatusConversation`. -/
structure WebhookStatusConversation where
  ID : String
  ExpirationTimestamp : String
  Origin : Option WebhookConversationOrigin
deriving Inhabited, DecidableEq

/-- Go struct `WebhookStatusPricing`. -/
structure WebhookStatusPricing where
  Billable : Bool
  PricingModel : PricingModel
  Category : PricingCategory
deriving Inhabited, DecidableEq

/-- Go struct `WebhookStatus`. -/
structure WebhookStatus where
  ID : String
  Status : MessageStatus
  Timestamp : String
  RecipientID : String
  Conversation : Option WebhookStatusConversation
  Pricing : Option WebhookStatusPricing
  Errors : Option (List WebhookError)
deriving Inhabited, DecidableEq

/-- Go struct `WebhookValue`. -/
structure WebhookValue where
  MessagingProduct : MessagingProduct
  Metadata : WebhookMetadata
  Contacts : Option (List WebhookContact)
  Messages : Option (List WebhookMessage)
  Statuses : Option (List WebhookStatus)
  Errors : Option (List WebhookError)
deriving Inhabited, DecidableEq

/-- Go struct `WebhookChange`. -/
structure WebhookChange where
  Value : WebhookValue
  Field : String
deriving Inhabited, DecidableEq

/-- Go struct `WebhookEntry`. -/
structure WebhookEntry where
  ID : String
  Changes : Option (List WebhookChange)
deriving Inhabited, DecidableEq

/-- Go struct `WebhookRequest` (the decoded notification envelope). -/
structure WebhookRequest where
  Object : String
  Entry : Option (List WebhookEntry)
deriving Inhabited, DecidableEq

/-! ### The `Webhook` struct and its handlers (`webhook.go`) -/

/-- The failure classes raised by `handleWebhookPOST`, with the message
text built by `fmt.Errorf` wrapping / `errors.New`. -/
inductive ErrKind where
  | readErr (msg : String)
  | invalidSignature
  | unmarshalErr (msg : String)
deriving DecidableEq

/-- The value of the `ErrHandler` interface field of a `Webhook`:
the nil interface, the webhook itself (what `NewWebhook` installs:
`wh.ErrHandler = wh`), or a host-supplied handler.  A host handler is a
function of the envelope pointer (`none` models a nil pointer) and the
error; its `Bool` result is the `HandleWebhookErr` return value. -/
inductive ErrHandlerV where
  | nilH
  | selfH
  | customH (f : Option WebhookRequest → ErrKind → Bool)

/-- Go struct `Webhook`.  `AppSecret` is kept as the byte list
`[]byte(wh.AppSecret)`, the only form the code uses it in.  The `Handler`
field is host code; its invocation is recorded by the dispatcher model
(`PostResult.handlerCall`) instead of being stored here. -/
structure Webhook where
  WebhookSecret : String
  AppSecret : List Nat
  ErrHandler : ErrHandlerV

/-- Go `NewWebhook`: builds the webhook and then installs the webhook
itself as its own error handler (`wh.ErrHandler = wh`). -/
def NewWebhook (webhookSecret : String) (appSecret : List Nat) : Webhook :=
  { WebhookSecret := webhookSecret, AppSecret := appSecret, ErrHandler := ErrHandlerV.selfH }

/-- Go method `Webhook.HandleWebhookErr`, with explicit fuel.  The body
checks `wh.ErrHandler != nil` and delegates to it; when `ErrHandler` is
the webhook itself the delegated call is this very method again, so each
such step consumes one unit of fuel.  `none` means the call has not
returned within the given fuel; a computation that is `none` for every
fuel never returns. -/
def handleWebhookErrFuel (wh : Webhook) (r : Option WebhookRequest) (err : ErrKind) :
    Nat → Option Bool
  | 0 => none
  | fuel+1 =>
    match wh.ErrHandler with
    | ErrHandlerV.nilH => some false
    | ErrHandlerV.customH f => some (f r err)
    | ErrHandlerV.selfH => handleWebhookErrFuel wh r err fuel

/-- Go `strings.CutPrefix s pre`: the remainder after the leading `pre`
together with whether `pre` was there. -/
def goCutPre (s pre : String) : String × Bool :=
  if pre.data.isPrefixOf s.data then (String.mk (s.data.drop pre.data.length), true)
  else (s, false)

/-- Go `hmac.Equal([]byte(a), []byte(b))`: constant-time comparison of the
byte encodings, which holds exactly when the strings are equal. -/
def hmacEqual (a b : String) : Bool := a == b

/-- Go method `Webhook.verifySignatureImpl`.  The Go parameter
`hashFunc func() hash.Hash` shows up here as the keyed-digest function
`hmacHex` (hex of HMAC built from that hash), the only use the body makes
of it. -/
def verifySignatureImpl (wh : Webhook) (signature pre : String) (body : List Nat)
    (hmacHex : List Nat → List Nat → String) : Bool :=
  let cut := goCutPre signature pre
  if !cut.2 then false
  else hmacEqual cut.1 (hmacHex wh.AppSecret body)

/-- The two signature headers of a request, as returned by
`r.Header.Get`: `sig256` is `X-Hub-Signature-256`, `sig1` is
`X-Hub-Signature`; an absent header reads as `""`. -/
structure HubHeaders where
  sig256 : String := ""
  sig1 : String := ""

/-- Go method `Webhook.verifySignature`. -/
def verifySignature (wh : Webhook) (h : HubHeaders) (body : List Nat) : Bool :=
  if h.sig256 ≠ "" then verifySignatureImpl wh h.sig256 "sha256=" body hmacSha256Hex
  else if h.sig1 ≠ "" then verifySignatureImpl wh h.sig1 "sha1=" body hmacSha1Hex
  else false

/-- One HTTP response: status code and body text. -/
structure Response where
  status : Nat
  body : String
deriving DecidableEq

/-- Go method `Webhook.verifyChallenge`, on the three query parameters
`hub.mode`, `hub.challenge`, `hub.verify_token` as read by
`r.URL.Query().Get`.  `w.WriteHeader(200); w.Write(challenge)` is the
response `⟨200, challenge⟩`; `w.WriteHeader(403)` alone is `⟨403, ""⟩`. -/
def verifyChallenge (wh : Webhook) (mode challenge verifyToken : String) : Response :=
  if mode = "subscribe" ∧ verifyToken = wh.WebhookSecret then
    { status := 200, body := challenge }
  else
    { status := 403, body := "" }

/-- The observable outcome of one `handleWebhookPOST` run: the single
`wh.HandleWebhookErr` call (its envelope-pointer and error arguments) if
one happened, the `wh.Handler.HandleWebhook` invocation (its envelope
argument) if one happened, and the response the core itself wrote, if
any.  Responses written by host code (the handler or the error hook) are
not core writes and are not recorded here. -/
structure PostResult where
  hookCall : Option (Option WebhookRequest × ErrKind)
  handlerCall : Option WebhookRequest
  write : Option Response

/-- `json.Unmarshal(body, &request)` as the dispatcher sees it: from the
raw bytes, the final contents of `request` (zero-valued fields where
nothing was stored) and the returned error, `none` meaning success.  Kept
as a parameter of the dispatcher model. -/
abbrev DecodeFn := List Nat → WebhookRequest × Option String

/-- The built-in default response per failure class, written through
`http.Error` (which appends a newline to the body). -/
def defaultResponse : ErrKind → Response
  | ErrKind.readErr _ => { status := 400, body := "Failed to read request body\n" }
  | ErrKind.invalidSignature => { status := 403, body := "Invalid signature\n" }
  | ErrKind.unmarshalErr _ => { status := 400, body := "Failed to parse request body\n" }

/-- Go method `Webhook.handleWebhookPOST`.  `readResult` is the outcome
of `io.ReadAll(r.Body)`; `hdr` carries the signature headers; `decode`
stands for `json.Unmarshal`; `fuel` bounds the `HandleWebhookErr`
delegation chain, and the run is `none` when that call never returns
(see `handleWebhookErrFuel`). -/
def handleWebhookPOST (wh : Webhook) (hdr : HubHeaders)
    (readResult : Except String (List Nat)) (decode : DecodeFn) (fuel : Nat) :
    Option PostResult :=
  match readResult with
  | Except.error e =>
    (handleWebhookErrFuel wh none (ErrKind.readErr e) fuel).map fun handled =>
      { hookCall := some (none, ErrKind.readErr e), handlerCall := none,
        write := if handled then none else some (defaultResponse (ErrKind.readErr e)) }
  | Except.ok body =>
    if verifySignature wh hdr body then
      match decode body with
      | (request, some e) =>
        (handleWebhookErrFuel wh (some request) (ErrKind.unmarshalErr e) fuel).map fun handled =>
          { hookCall := some (some request, ErrKind.unmarshalErr e), handlerCall := none,
            write := if handled then none else some (defaultResponse (ErrKind.unmarshalErr e)) }
      | (request, none) =>
        some { hookCall := none, handlerCall := some request, write := none }
    else
      (handleWebhookErrFuel wh none ErrKind.invalidSignature fuel).map fun handled =>
        { hookCall := some (none, ErrKind.invalidSignature), handlerCall := none,
          write := if handled then none else some (defaultResponse ErrKind.invalidSignature) }

/-! ### `encoding/json` decoding of the webhook payload

`Json` is a decoded JSON document (a syntactically valid body).  The
`decode...` functions below model `json.Unmarshal` into the Go structs
above, following its documented behaviour for the shapes that occur
here: unknown object keys are ignored; a duplicate key keeps the last
value; an absent key or a `null` leaves the zero value; `null` into a
slice or pointer leaves it nil; a shape mismatch (for instance a number
where a string field expects a string) is an unmarshalling error.  Key
matching is by the exact tag name, the form the wire format mandates.
Go accumulates the first type error while continuing to fill later
fields; these decoders stop at the first error instead, which yields the
same success-versus-error verdict. -/

inductive Json where
  | null
  | bool (b : Bool)
  | num (v : JsonNumber)
  | str (s : String)
  | arr (elems : List Json)
  | obj (fields : List (String × Json))
deriving Inhabited

/-- The value stored under key `k` of a JSON object, the last occurrence
winning as in `json.Unmarshal`. -/
def getKey (o : List (String × Json)) (k : String) : Option Json :=
  o.foldl (fun acc kv => if kv.1 = k then some kv.2 else acc) none

/-- Unmarshal an optional object member into a `string`-typed field. -/
def decStringField : Option Json → Except String String
  | none => Except.ok ""
  | some Json.null => Except.ok ""
  | some (Json.str s) => Except.ok s
  | some _ => Except.error ("json: cannot unmarshal value into field of string type")

/-- Unmarshal an optional object member into a `bool`-typed field. -/
def decBoolField : Option Json → Except String Bool
  | none => Except.ok false
  | some Json.null => Except.ok false
  | some (Json.bool b) => Except.ok b
  | some _ => Except.error ("json: cannot unmarshal value into field of bool type")

/-- Unmarshal an optional object member into an `int`-typed field. -/
def decIntField : Option Json → Except String Int
  | none => Except.ok 0
  | some Json.null => Except.ok 0
  | some (Json.num v) =>
      if v.hasFrac then Except.error ("json: cannot unmarshal number into field of int type")
      else Except.ok v.ip
  | some _ => Except.error ("json: cannot unmarshal value into field of int type")

/-- Unmarshal an optional object member into a `float64`-typed field
(kept as the decimal number data). -/
def decNumField : Option Json → Except String JsonNumber
  | none => Except.ok default
  | some Json.null => Except.ok default
  | some (Json.num v) => Except.ok v
  | some _ => Except.error ("json: cannot unmarshal value into field of float64 type")

/-- Unmarshal an optional object member into a slice field (`[]T`):
absent or `null` leaves the slice nil (`none`); an array decodes
element-wise, an empty array giving the present-and-empty `some []`. -/
def decListField {α : Type} (dec : Json → Except String α) :
    Option Json → Except String (Option (List α))
  | none => Except.ok none
  | some Json.null => Except.ok none
  | some (Json.arr xs) => (xs.mapM dec).map some
  | some _ => Except.error ("json: cannot unmarshal value into field of slice type")

/-- Unmarshal an optional object member into a pointer field (`*T`):
absent or `null` leaves the pointer nil (`none`). -/
def decPtrField {α : Type} (dec : Json → Except String α) :
    Option Json → Except String (Option α)
  | none => Except.ok none
  | some Json.null => Except.ok none
  | some j => (dec j).map some

/-- Unmarshal an optional object member into an embedded (non-pointer)
struct field: absent leaves the zero value, otherwise the struct decoder
runs (which itself maps `null` to the zero value). -/
def decStructField {α : Type} [Inhabited α] (dec : Json → Except String α) :
    Option Json → Except String α
  | none => Except.ok default
  | some j => dec j

/-- `json.Unmarshal` into `WebhookMetadata`. -/
def decodeWebhookMetadata : Json → Except String WebhookMetadata
  | Json.null => Except.ok default
  | Json.obj o => do
      let dpn ← decStringField (getKey o ("display_phone_number"))
      let pni ← decStringField (getKey o ("phone_number_id"))
      Except.ok { DisplayPhoneNumber := dpn, PhoneNumberID := pni }
  | _ => Except.error ("json: cannot unmarshal value into WebhookMetadata")

/-- `json.Unmarshal` into `WebhookProfile`. -/
def decodeWebhookProfile : Json → Except String WebhookProfile
  | Json.null => Except.ok default
  | Json.obj o => do
      let n ← decStringField (getKey o ("name"))
      Except.ok { Name := n }
  | _ => Except.error ("json: cannot unmarshal value into WebhookProfile")

/-- `json.Unmarshal` into `WebhookContact`. -/
def decodeWebhookContact : Json → Except String WebhookContact
  | Json.null => Except.ok default
  | Json.obj o => do
      let p ← decStructField decodeWebhookProfile (getKey o ("profile"))
      let w ← decStringField (getKey o ("wa_id"))
      Except.ok { Profile := p, WaID := w }
  | _ => Except.error ("json: cannot unmarshal value into WebhookContact")

/-- `json.Unmarshal` into `WebhookReferredProduct`. -/
def decodeWebhookReferredProduct : Json → Except String WebhookReferredProduct
  | Json.null => Except.ok default
  | Json.obj o => do
      let c ← decStringField (getKey o ("catalog_id"))
      let p ← decStringField (getKey o ("product_retailer_id"))
      Except.ok { CatalogID := c, ProductRetailerID := p }
  | _ => Except.error ("json: cannot unmarshal value into WebhookReferredProduct")

/-- `json.Unmarshal` into `WebhookMessageContext`. -/
def decodeWebhookMessageContext : Json → Except String WebhookMessageContext
  | Json.null => Except.ok default
  | Json.obj o => do
      let f ← decStringField (getKey o ("from"))
      let i ← decStringField (getKey o ("id"))
      let rp ← decPtrField decodeWebhookReferredProduct (getKey o ("referred_product"))
      let fw ← decBoolField (getKey o ("forwarded"))
      Except.ok { From := f, ID := i, ReferredProduct := rp, Forwarded := fw }
  | _ => Except.error ("json: cannot unmarshal value into WebhookMessageContext")

/-- `json.Unmarshal` into `WebhookMessageText`. -/
def decodeWebhookMessageText : Json → Except String WebhookMessageText
  | Json.null => Except.ok default
  | Json.obj o => do
      let b ← decStringField (getKey o ("body"))
      Except.ok { Body := b }
  | _ => Except.error ("json: cannot unmarshal value into WebhookMessageText")

/-- `json.Unmarshal` into `WebhookMessageMedia`. -/
def decodeWebhookMessageMedia : Json → Except String WebhookMessageMedia
  | Json.null => Except.ok default
  | Json.obj o => do
      let c ← decStringField (getKey o ("caption"))
      let f ← decStringField (getKey o ("filename"))
      let i ← decStringField (getKey o ("id"))
      let m ← decStringField (getKey o ("mime_type"))
      let s ← decStringField (getKey o ("sha256"))
      Except.ok { Caption := c, Filename := f, ID := i, MimeType := m, SHA256 := s }
  | _ => Except.error ("json: cannot unmarshal value into WebhookMessageMedia")

/-- `json.Unmarshal` into `WebhookMessageLocation`. -/
def decodeWebhookMessageLocation : Json → Except String WebhookMessageLocation
  | Json.null => Except.ok default
  | Json.obj o => do
      let la ← decNumField (getKey o ("latitude"))
      let lo ← decNumField (getKey o ("longitude"))
      let n ← decStringField (getKey o ("name"))
      let a ← decStringField (getKey o ("address"))
      Except.ok { Latitude := la, Longitude := lo, Name := n, Address := a }
  | _ => Except.error ("json: cannot unmarshal value into WebhookMessageLocation")

/-- `json.Unmarshal` into `WebhookContactAddress`. -/
def decodeWebhookContactAddress : Json → Except String WebhookContactAddress
  | Json.null => Except.ok default
  | Json.obj o => do
      let st ← decStringField (getKey o ("street"))
      let ci ← decStringField (getKey o ("city"))
      let sa ← decStringField (getKey o ("state"))
      let zi ← decStringField (getKey o ("zip"))
      let co ← decStringField (getKey o ("country"))
      let cc ← decStringField (getKey o ("country_code"))
      let ty ← decStringField (getKey o ("type"))
      Except.ok { Street := st, City := ci, State := sa, Zip := zi, Country := co,
                  CountryCode := cc, Type' := ty }
  | _ => Except.error ("json: cannot unmarshal value into WebhookContactAddress")

/-- `json.Unmarshal` into `WebhookContactEmail`. -/
def decodeWebhookContactEmail : Json → Except String WebhookContactEmail
  | Json.null => Except.ok default
  | Json.obj o => do
      let e ← decStringField (getKey o ("email"))
      let ty ← decStringField (getKey o ("type"))
      Except.ok { Email := e, Type' := ty }
  | _ => Except.error ("json: cannot unmarshal value into WebhookContactEmail")

/-- `json.Unmarshal` into `WebhookContactName`. -/
def decodeWebhookContactName : Json → Except String WebhookContactName
  | Json.null => Except.ok default
  | Json.obj o => do
      let fo ← decStringField (getKey o ("formatted_name"))
      let fi ← decStringField (getKey o ("first_name"))
      let la ← decStringField (getKey o ("last_name"))
      let mi ← decStringField (getKey o ("middle_name"))
      let su ← decStringField (getKey o ("suffix"))
      let pr ← decStringField (getKey o ("prefix"))
      Except.ok { FormattedName := fo, FirstName := fi, LastName := la, MiddleName := mi,
                  Suffix := su, Prefix := pr }
  | _ => Except.error ("json: cannot unmarshal value into WebhookContactName")

/-- `json.Unmarshal` into `WebhookContactOrg`. -/
def decodeWebhookContactOrg : Json → Except String WebhookContactOrg
  | Json.null => Except.ok default
  | Json.obj o => do
      let co ← decStringField (getKey o ("company"))
      let de ← decStringField (getKey o ("department"))
      let ti ← decStringField (getKey o ("title"))
      Except.ok { Company := co, Department := de, Title := ti }
  | _ => Except.error ("json: cannot unmarshal value into WebhookContactOrg")

/-- `json.Unmarshal` into `WebhookContactPhone`. -/
def decodeWebhookContactPhone : Json → Except String WebhookContactPhone
  | Json.null => Except.ok default
  | Json.obj o => do
      let p ← decStringField (getKey o ("phone"))
      let w ← decStringField (getKey o ("wa_id"))
      let ty ← decStringField (getKey o ("type"))
      Except.ok { Phone := p, WaID := w, Type' := ty }
  | _ => Except.error ("json: cannot unmarshal value into WebhookContactPhone")

/-- `json.Unmarshal` into `WebhookContactURL`. -/
def decodeWebhookContactURL : Json → Except String WebhookContactURL
  | Json.null => Except.ok default
  | Json.obj o => do
      let u ← decStringField (getKey o ("url"))
      let ty ← decStringField (getKey o ("type"))
      Except.ok { URL := u, Type' := ty }
  | _ => Except.error ("json: cannot unmarshal value into WebhookContactURL")

/-- `json.Unmarshal` into `WebhookMessageContact`. -/
def decodeWebhookMessageContact : Json → Except String WebhookMessageContact
  | Json.null => Except.ok default
  | Json.obj o => do
      let ad ← decListField decodeWebhookContactAddress (getKey o ("addresses"))
      let bi ← decStringField (getKey o ("birthday"))
      let em ← decListField decodeWebhookContactEmail (getKey o ("emails"))
      let na ← decPtrField decodeWebhookContactName (getKey o ("name"))
      let og ← decPtrField decodeWebhookContactOrg (getKey o ("org"))
      let ph ← decListField decodeWebhookContactPhone (getKey o ("phones"))
      let ur ← decListField decodeWebhookContactURL (getKey o ("urls"))
      Except.ok { Addresses := ad, Birthday := bi, Emails := em, Name := na, Org := og,
                  Phones := ph, URLs := ur }
  | _ => Except.error ("json: cannot unmarshal value into WebhookMessageContact")

/-- `json.Unmarshal` into `WebhookMessageButton`. -/
def decodeWebhookMessageButton : Json → Except String WebhookMessageButton
  | Json.null => Except.ok default
  | Json.obj o => do
      let t ← decStringField (getKey o ("text"))
      let p ← decStringField (getKey o ("payload"))
      Except.ok { Text := t, Payload := p }
  | _ => Except.error ("json: cannot unmarshal value into WebhookMessageButton")

/-- `json.Unmarshal` into `WebhookMessageInteractiveButton`. -/
def decodeWebhookMessageInteractiveButton : Json → Except String WebhookMessageInteractiveButton
  | Json.null => Except.ok default
  | Json.obj o => do
      let i ← decStringField (getKey o ("id"))
      let t ← decStringField (getKey o ("title"))
      Except.ok { ID := i, Title := t }
  | _ => Except.error ("json: cannot unmarshal value into WebhookMessageInteractiveButton")

/-- `json.Unmarshal` into `WebhookMessageInteractiveListItem`. -/
def decodeWebhookMessageInteractiveListItem :
    Json → Except String WebhookMessageInteractiveListItem
  | Json.null => Except.ok default
  | Json.obj o => do
      let i ← decStringField (getKey o ("id"))
      let t ← decStringField (getKey o ("title"))
      let d ← decStringField (getKey o ("description"))
      Except.ok { ID := i, Title := t, Description := d }
  | _ => Except.error ("json: cannot unmarshal value into WebhookMessageInteractiveListItem")

/-- `json.Unmarshal` into `WebhookMessageInteractive`. -/
def decodeWebhookMessageInteractive : Json → Except String WebhookMessageInteractive
  | Json.null => Except.ok default
  | Json.obj o => do
      let ty ← decStringField (getKey o ("type"))
      let br ← decPtrField decodeWebhookMessageInteractiveButton (getKey o ("button_reply"))
      let lr ← decPtrField decodeWebhookMessageInteractiveListItem (getKey o ("list_reply"))
      Except.ok { Type' := ty, ButtonReply := br, ListReply := lr }
  | _ => Except.error ("json: cannot unmarshal value into WebhookMessageInteractive")

/-- `json.Unmarshal` into `WebhookMessageOrderItem`. -/
def decodeWebhookMessageOrderItem : Json → Except String WebhookMessageOrderItem
  | Json.null => Except.ok default
  | Json.obj o => do
      let p ← decStringField (getKey o ("product_retailer_id"))
      let q ← decStringField (getKey o ("quantity"))
      let ip ← decStringField (getKey o ("item_price"))
      let c ← decStringField (getKey o ("currency"))
      Except.ok { ProductRetailerID := p, Quantity := q, ItemPrice := ip, Currency := c }
  | _ => Except.error ("json: cannot unmarshal value into WebhookMessageOrderItem")

/-- `json.Unmarshal` into `WebhookMessageOrder`. -/
def decodeWebhookMessageOrder : Json → Except String WebhookMessageOrder
  | Json.null => Except.ok default
  | Json.obj o => do
      let c ← decStringField (getKey o ("catalog_id"))
      let pi ← decListField decodeWebhookMessageOrderItem (getKey o ("product_items"))
      let t ← decStringField (getKey o ("text"))
      Except.ok { CatalogID := c, ProductItems := pi, Text := t }
  | _ => Except.error ("json: cannot unmarshal value into WebhookMessageOrder")

/-- `json.Unmarshal` into `WebhookMessageSystem`. -/
def decodeWebhookMessageSystem : Json → Except String WebhookMessageSystem
  | Json.null => Except.ok default
  | Json.obj o => do
      let b ← decStringField (getKey o ("body"))
      let n ← decStringField (getKey o ("new_wa_id"))
      let ty ← decStringField (getKey o ("type"))
      Except.ok { Body := b, NewWaID := n, Type' := ty }
  | _ => Except.error ("json: cannot unmarshal value into WebhookMessageSystem")

/-- `json.Unmarshal` into `WebhookMessageReaction`. -/
def decodeWebhookMessageReaction : Json → Except String WebhookMessageReaction
  | Json.null => Except.ok default
  | Json.obj o => do
      let m ← decStringField (getKey o ("message_id"))
      let e ← decStringField (getKey o ("emoji"))
      Except.ok { MessageID := m, Emoji := e }
  | _ => Except.error ("json: cannot unmarshal value into WebhookMessageReaction")

/-- `json.Unmarshal` into `WebhookMessageReferral`. -/
def decodeWebhookMessageReferral : Json → Except String WebhookMessageReferral
  | Json.null => Except.ok default
  | Json.obj o => do
      let su ← decStringField (getKey o ("source_url"))
      let si ← decStringField (getKey o ("source_id"))
      let st ← decStringField (getKey o ("source_type"))
      let he ← decStringField (getKey o ("headline"))
      let bo ← decStringField (getKey o ("body"))
      let me ← decStringField (getKey o ("media_type"))
      let im ← decStringField (getKey o ("image_url"))
      let vi ← decStringField (getKey o ("video_url"))
      let th ← decStringField (getKey o ("thumbnail_url"))
      let ct ← decStringField (getKey o ("ctwa_clid"))
      Except.ok { SourceURL := su, SourceID := si, SourceType := st, Headline := he, Body := bo,
                  MediaType := me, ImageURL := im, VideoURL := vi, ThumbnailURL := th,
                  CTWAClid := ct }
  | _ => Except.error ("json: cannot unmarshal value into WebhookMessageReferral")

/-- `json.Unmarshal` into `WebhookErrorData`. -/
def decodeWebhookErrorData : Json → Except String WebhookErrorData
  | Json.null => Except.ok default
  | Json.obj o => do
      let d ← decStringField (getKey o ("details"))
      Except.ok { Details := d }
  | _ => Except.error ("json: cannot unmarshal value into WebhookErrorData")

/-- `json.Unmarshal` into `WebhookError`. -/
def decodeWebhookError : Json → Except String WebhookError
  | Json.null => Except.ok default
  | Json.obj o => do
      let c ← decIntField (getKey o ("code"))
      let t ← decStringField (getKey o ("title"))
      let m ← decStringField (getKey o ("message"))
      let d ← decStringField (getKey o ("details"))
      let ed ← decPtrField decodeWebhookErrorData (getKey o ("error_data"))
      let h ← decStringField (getKey o ("href"))
      Except.ok { Code := c, Title := t, Message := m, Details := d, ErrorData := ed, Href := h }
  | _ => Except.error ("json: cannot unmarshal value into WebhookError")

/-- `json.Unmarshal` into `WebhookMessage`.  The `type` member is a plain
string field: whatever string arrives is stored verbatim in `Type'`. -/
def decodeWebhookMessage : Json → Except String WebhookMessage
  | Json.null => Except.ok default
  | Json.obj o => do
      let fr ← decStringField (getKey o ("from"))
      let id ← decStringField (getKey o ("id"))
      let ts ← decStringField (getKey o ("timestamp"))
      let ty ← decStringField (getKey o ("type"))
      let cx ← decPtrField decodeWebhookMessageContext (getKey o ("context"))
      let te ← decPtrField decodeWebhookMessageText (getKey o ("text"))
      let im ← decPtrField decodeWebhookMessageMedia (getKey o ("image"))
      let au ← decPtrField decodeWebhookMessageMedia (getKey o ("audio"))
      let vi ← decPtrField decodeWebhookMessageMedia (getKey o ("video"))
      let dc ← decPtrField decodeWebhookMessageMedia (getKey o ("document"))
      let sk ← decPtrField decodeWebhookMessageMedia (getKey o ("sticker"))
      let lo ← decPtrField decodeWebhookMessageLocation (getKey o ("location"))
      let cs ← decListField decodeWebhookMessageContact (getKey o ("contacts"))
      let bu ← decPtrField decodeWebhookMessageButton (getKey o ("button"))
      let ia ← decPtrField decodeWebhookMessageInteractive (getKey o ("interactive"))
      let od ← decPtrField decodeWebhookMessageOrder (getKey o ("order"))
      let sy ← decPtrField decodeWebhookMessageSystem (getKey o ("system"))
      let re ← decPtrField decodeWebhookMessageReaction (getKey o ("reaction"))
      let rf ← decPtrField decodeWebhookMessageReferral (getKey o ("referral"))
      let er ← decListField decodeWebhookError (getKey o ("errors"))
      Except.ok { From := fr, ID := id, Timestamp := ts, Type' := ty, Context := cx, Text := te,
                  Image := im, Audio := au, Video := vi, Document := dc, Sticker := sk,
                  Location := lo, Contacts := cs, Button := bu, Interactive := ia, Order := od,
                  System := sy, Reaction := re, Referral := rf, Errors := er }
  | _ => Except.error ("json: cannot unmarshal value into WebhookMessage")

/-- `json.Unmarshal` into `WebhookConversationOrigin`. -/
def decodeWebhookConversationOrigin : Json → Except String WebhookConversationOrigin
  | Json.null => Except.ok default
  | Json.obj o => do
      let ty ← decStringField (getKey o ("type"))
      Except.ok { Type' := ty }
  | _ => Except.error ("json: cannot unmarshal value into WebhookConversationOrigin")

/-- `json.Unmarshal` into `WebhookStatusConversation`. -/
def decodeWebhookStatusConversation : Json → Except String WebhookStatusConversation
  | Json.null => Except.ok default
  | Json.obj o => do
      let i ← decStringField (getKey o ("id"))
      let e ← decStringField (getKey o ("expiration_timestamp"))
      let og ← decPtrField decodeWebhookConversationOrigin (getKey o ("origin"))
      Except.ok { ID := i, ExpirationTimestamp := e, Origin := og }
  | _ => Except.error ("json: cannot unmarshal value into WebhookStatusConversation")

/-- `json.Unmarshal` into `WebhookStatusPricing`. -/
def decodeWebhookStatusPricing : Json → Except String WebhookStatusPricing
  | Json.null => Except.ok default
  | Json.obj o => do
      let b ← decBoolField (getKey o ("billable"))
      let p ← decStringField (getKey o ("pricing_model"))
      let c ← decStringField (getKey o ("category"))
      Except.ok { Billable := b, PricingModel := p, Category := c }
  | _ => Except.error ("json: cannot unmarshal value into WebhookStatusPricing")

/-- `json.Unmarshal` into `WebhookStatus`. -/
def decodeWebhookStatus : Json → Except String WebhookStatus
  | Json.null => Except.ok default
  | Json.obj o => do
      let i ← decStringField (getKey o ("id"))
      let st ← decStringField (getKey o ("status"))
      let ts ← decStringField (getKey o ("timestamp"))
      let rc ← decStringField (getKey o ("recipient_id"))
      let cv ← decPtrField decodeWebhookStatusConversation (getKey o ("conversation"))
      let pr ← decPtrField decodeWebhookStatusPricing (getKey o ("pricing"))
      let er ← decListField decodeWebhookError (getKey o ("errors"))
      Except.ok { ID := i, Status := st, Timestamp := ts, RecipientID := rc, Conversation := cv,
                  Pricing := pr, Errors := er }
  | _ => Except.error ("json: cannot unmarshal value into WebhookStatus")

/-- `json.Unmarshal` into `WebhookValue`. -/
def decodeWebhookValue : Json → Except String WebhookValue
  | Json.null => Except.ok default
  | Json.obj o => do
      let mp ← decStringField (getKey o ("messaging_product"))
      let md ← decStructField decodeWebhookMetadata (getKey o ("metadata"))
      let co ← decListField decodeWebhookContact (getKey o ("contacts"))
      let ms ← decListField decodeWebhookMessage (getKey o ("messages"))
      let st ← decListField decodeWebhookStatus (getKey o ("statuses"))
      let er ← decListField decodeWebhookError (getKey o ("errors"))
      Except.ok { MessagingProduct := mp, Metadata := md, Contacts := co, Messages := ms,
                  Statuses := st, Errors := er }
  | _ => Except.error ("json: cannot unmarshal value into WebhookValue")

/-- `json.Unmarshal` into `WebhookChange`. -/
def decodeWebhookChange : Json → Except String WebhookChange
  | Json.null => Except.ok default
  | Json.obj o => do
      let v ← decStructField decodeWebhookValue (getKey o ("value"))
      let f ← decStringField (getKey o ("field"))
      Except.ok { Value := v, Field := f }
  | _ => Except.error ("json: cannot unmarshal value into WebhookChange")

/-- `json.Unmarshal` into `WebhookEntry`. -/
def decodeWebhookEntry : Json → Except String WebhookEntry
  | Json.null => Except.ok default
  | Json.obj o => do
      let i ← decStringField (getKey o ("id"))
      let c ← decListField decodeWebhookChange (getKey o ("changes"))
      Except.ok { ID := i, Changes := c }
  | _ => Except.error ("json: cannot unmarshal value into WebhookEntry")

/-- `json.Unmarshal` into the envelope `WebhookRequest`. -/
def decodeWebhookRequest : Json → Except String WebhookRequest
  | Json.null => Except.ok default
  | Json.obj o => do
      let ob ← decStringField (getKey o ("object"))
      let en ← decListField decodeWebhookEntry (getKey o ("entry"))
      Except.ok { Object := ob, Entry := en }
  | _ => Except.error ("json: cannot unmarshal value into WebhookRequest")

/-! ### Helper lemmas -/

/-- Appending strings concatenates their character data. -/
theorem strData_append (a b : String) : (a ++ b).data = a.data ++ b.data := by
  cases a; cases b; rfl

/-- A string starting with a non-empty literal is non-empty. -/
theorem pre_append_ne_empty (pre s : String) (h : pre.data ≠ []) : (pre ++ s) ≠ "" := by
  intro he
  have hd : (pre ++ s).data = ([] : List Char) := by rw [he]
  rw [strData_append] at hd
  exact h (List.append_eq_nil.mp hd).1

/-- `strings.CutPrefix` on a string that does start with the given
leading literal returns the remainder and `true`. -/
theorem goCutPre_append (pre s : String) : goCutPre (pre ++ s) pre = (s, true) := by
  unfold goCutPre
  rw [strData_append]
  rw [List.isPrefixOf_iff_prefix.mpr (List.prefix_append _ _)]
  simp [List.drop_left]

/-- `verifySignatureImpl` accepts the signature built from the correct
keyed digest of the body. -/
theorem impl_roundtrip (wh : Webhook) (pre : String) (body : List Nat)
    (hf : List Nat → List Nat → String) :
    verifySignatureImpl wh (pre ++ hf wh.AppSecret body) pre body hf = true := by
  unfold verifySignatureImpl
  rw [goCutPre_append]
  simp [hmacEqual]

/-- `verifySignatureImpl` rejects a well-prefixed signature whose digest
part differs from the digest of the body. -/
theorem impl_mismatch (wh : Webhook) (pre x : String) (body : List Nat)
    (hf : List Nat → List Nat → String) (h : x ≠ hf wh.AppSecret body) :
    verifySignatureImpl wh (pre ++ x) pre body hf = false := by
  unfold verifySignatureImpl
  rw [goCutPre_append]
  simp [hmacEqual, h]

/-- `decListField` on an absent member yields the nil slice. -/
theorem decListField_none {α : Type} (dec : Json → Except String α) :
    decListField dec none = Except.ok none := rfl

/-- `decListField` on an empty JSON array yields the present-and-empty
slice. -/
theorem decListField_emptyArr {α : Type} (dec : Json → Except String α) :
    decListField dec (some (Json.arr [])) = Except.ok (some []) := rfl

/-- Inversion of a successful `decodeWebhookValue` run: each slice field
of the result is exactly what `decListField` produced from the
correspondingly named object member. -/
theorem decodeValue_fields (o : List (String × Json)) (v : WebhookValue)
    (h : decodeWebhookValue (Json.obj o) = Except.ok v) :
    decListField decodeWebhookContact (getKey o ("contacts")) = Except.ok v.Contacts ∧
    decListField decodeWebhookMessage (getKey o ("messages")) = Except.ok v.Messages ∧
    decListField decodeWebhookStatus (getKey o ("statuses")) = Except.ok v.Statuses ∧
    decListField decodeWebhookError (getKey o ("errors")) = Except.ok v.Errors := by
  simp only [decodeWebhookValue, bind, Except.bind] at h
  cases h1 : decStringField (getKey o ("messaging_product")) with
  | error e => rw [h1] at h; simp at h
  | ok mp =>
  rw [h1] at h
  cases h2 : decStructField decodeWebhookMetadata (getKey o ("metadata")) with
  | error e => rw [h2] at h; simp at h
  | ok md =>
  rw [h2] at h
  cases h3 : decListField decodeWebhookContact (getKey o ("contacts")) with
  | error e => rw [h3] at h; simp at h
  | ok co =>
  rw [h3] at h
  cases h4 : decListField decodeWebhookMessage (getKey o ("messages")) with
  | error e => rw [h4] at h; simp at h
  | ok ms =>
  rw [h4] at h
  cases h5 : decListField decodeWebhookStatus (getKey o ("statuses")) with
  | error e => rw [h5] at h; simp at h
  | ok st =>
  rw [h5] at h
  cases h6 : decListField decodeWebhookError (getKey o ("errors")) with
  | error e => rw [h6] at h; simp at h
  | ok er =>
  rw [h6] at h
  simp only [Except.ok.injEq] at h
  rw [← h]
  exact ⟨rfl, rfl, rfl, rfl⟩

/-! ### The claims -/

/-- Claim C1.  The claim says that a `Webhook` built by `NewWebhook`
with no host override has a `HandleWebhookErr` that always terminates
and returns `false`.  In the code, `NewWebhook` installs the webhook as
its own error handler (`wh.ErrHandler = wh`) and `HandleWebhookErr`
delegates to `wh.ErrHandler`, so the call re-enters itself forever: for
every fuel bound the modelled call fails to return.  This contradicts
the claim (and the documented default of returning `false`), so the
self-referential wiring in `NewWebhook` is a code bug: the guarded
`return false` fallback is unreachable. -/
theorem c1_default_error_hook_never_returns (ws : String) (as : List Nat)
    (r : Option WebhookRequest) (err : ErrKind) (fuel : Nat) :
    handleWebhookErrFuel (NewWebhook ws as) r err fuel = none := by
  induction fuel with
  | zero => rfl
  | succ n ih => exact ih

/-- Claim C2.  Signature round-trip: for every application secret and
every body, a request whose `X-Hub-Signature-256` header is `sha256=`
followed by the lowercase-hex HMAC-SHA256 of the body verifies `true`;
and with that same header value, any body whose HMAC-SHA256 digest
differs (in particular any byte flip that changes the digest) verifies
`false`. -/
theorem c2_signature_roundtrip (wh : Webhook) (body : List Nat) (s1 : String) :
    verifySignature wh { sig256 := "sha256=" ++ hmacSha256Hex wh.AppSecret body, sig1 := s1 }
      body = true ∧
    ∀ body2 : List Nat,
      hmacSha256Hex wh.AppSecret body2 ≠ hmacSha256Hex wh.AppSecret body →
      verifySignature wh { sig256 := "sha256=" ++ hmacSha256Hex wh.AppSecret body, sig1 := s1 }
        body2 = false := by
  have hne : ("sha256=" ++ hmacSha256Hex wh.AppSecret body) ≠ "" :=
    pre_append_ne_empty _ _ (by decide)
  constructor
  · simp only [verifySignature]
    rw [if_pos hne]
    exact impl_roundtrip wh _ body hmacSha256Hex
  · intro body2 hd
    simp only [verifySignature]
    rw [if_pos hne]
    exact impl_mismatch wh _ _ body2 hmacSha256Hex (Ne.symm hd)

set_option maxRecDepth 1000000 in
/-- Witness for claim C2 at the empty secret, the empty body and the
one-byte body `[0]` (whose digests differ, checked by evaluation). -/
theorem c2_signature_roundtrip_witness :
    verifySignature (NewWebhook "" [])
      { sig256 := "sha256=" ++ hmacSha256Hex [] [], sig1 := "" } [] = true ∧
    verifySignature (NewWebhook "" [])
      { sig256 := "sha256=" ++ hmacSha256Hex [] [], sig1 := "" } [0] = false := by
  constructor
  · exact (c2_signature_roundtrip (NewWebhook "" []) [] "").1
  · exact (c2_signature_roundtrip (NewWebhook "" []) [] "").2 [0] (by decide)

/-- Claim C3.  When both signature headers are non-empty, only the
SHA-256 one is evaluated: the verdict equals the SHA-256 check of that
header, and it is unchanged if the `X-Hub-Signature` (SHA-1) header is
replaced by anything else (here: dropped), so a valid SHA-256 header
verifies `true` and an invalid one verifies `false` regardless of the
SHA-1 header. -/
theorem c3_sha256_precedence (wh : Webhook) (body : List Nat) (s256 s1 : String)
    (h256 : s256 ≠ "") (_h1 : s1 ≠ "") :
    verifySignature wh { sig256 := s256, sig1 := s1 } body =
      verifySignatureImpl wh s256 "sha256=" body hmacSha256Hex ∧
    verifySignature wh { sig256 := s256, sig1 := s1 } body =
      verifySignature wh { sig256 := s256, sig1 := "" } body := by
  constructor <;> simp [verifySignature, h256]

/-- Witness for claim C3 at a concrete non-empty header pair. -/
theorem c3_sha256_precedence_witness :
    verifySignature (NewWebhook "" []) { sig256 := "sha256=x", sig1 := "x" } [] =
      verifySignatureImpl (NewWebhook "" []) "sha256=x" "sha256=" [] hmacSha256Hex ∧
    verifySignature (NewWebhook "" []) { sig256 := "sha256=x", sig1 := "x" } [] =
      verifySignature (NewWebhook "" []) { sig256 := "sha256=x", sig1 := "" } [] :=
  c3_sha256_precedence (NewWebhook "" []) [] "sha256=x" "x" (by decide) (by decide)

/-- Claim C4.  Fail-closed behaviour: with both signature headers absent
(empty) the verdict is `false` for every body and secret; and a
non-empty selected header that does not begin with the exact literal
algorithm marker (`sha256=` for `X-Hub-Signature-256`, `sha1=` for
`X-Hub-Signature`) also yields `false`. -/
theorem c4_fail_closed (wh : Webhook) (body : List Nat) (s256 s1 : String) :
    verifySignature wh { sig256 := "", sig1 := "" } body = false ∧
    (s256 ≠ "" → ("sha256=").data.isPrefixOf s256.data = false →
      verifySignature wh { sig256 := s256, sig1 := s1 } body = false) ∧
    (s1 ≠ "" → ("sha1=").data.isPrefixOf s1.data = false →
      verifySignature wh { sig256 := "", sig1 := s1 } body = false) := by
  refine ⟨by simp [verifySignature], ?_, ?_⟩
  · intro h hp
    simp [verifySignature, h, verifySignatureImpl, goCutPre, hp]
  · intro h hp
    simp [verifySignature, h, verifySignatureImpl, goCutPre, hp]

/-- Witness for claim C4 with no headers and with malformed headers. -/
theorem c4_fail_closed_witness :
    verifySignature (NewWebhook "" []) { sig256 := "", sig1 := "" } [] = false ∧
    verifySignature (NewWebhook "" []) { sig256 := "bad", sig1 := "" } [] = false ∧
    verifySignature (NewWebhook "" []) { sig256 := "", sig1 := "bad" } [] = false := by
  refine ⟨(c4_fail_closed (NewWebhook "" []) [] "bad" "bad").1, ?_, ?_⟩
  · exact (c4_fail_closed (NewWebhook "" []) [] "bad" "bad").2.1 (by decide) (by decide)
  · exact (c4_fail_closed (NewWebhook "" []) [] "bad" "bad").2.2 (by decide) (by decide)

/-- Claim C5.  The challenge responder (the GET path of `ServeHTTP`):
when `hub.mode` is exactly `subscribe` and `hub.verify_token` equals the
configured webhook secret, the response is status 200 with body exactly
the `hub.challenge` parameter (including the empty challenge); in every
other case it is status 403 with an empty body. -/
theorem c5_challenge_response (wh : Webhook) (mode challenge verifyToken : String) :
    (mode = "subscribe" ∧ verifyToken = wh.WebhookSecret →
      verifyChallenge wh mode challenge verifyToken = { status := 200, body := challenge }) ∧
    (¬(mode = "subscribe" ∧ verifyToken = wh.WebhookSecret) →
      verifyChallenge wh mode challenge verifyToken = { status := 403, body := "" }) := by
  constructor
  · intro h; simp [verifyChallenge, h]
  · intro h; simp [verifyChallenge, h]

/-- Witness for claim C5: matching and non-matching verify tokens. -/
theorem c5_challenge_response_witness :
    verifyChallenge (NewWebhook "s" []) "subscribe" "tok" "s" =
      { status := 200, body := "tok" } ∧
    verifyChallenge (NewWebhook "s" []) "subscribe" "tok" "bad" =
      { status := 403, body := "" } := by
  constructor
  · exact (c5_challenge_response (NewWebhook "s" []) "subscribe" "tok" "s").1 ⟨rfl, rfl⟩
  · exact (c5_challenge_response (NewWebhook "s" []) "subscribe" "tok" "bad").2 (by decide)

/-- Claim C6.  Verification precedes decoding: on a POST whose signature
fails to verify, the run of `handleWebhookPOST` is identical for every
decode function (so `json.Unmarshal` is never consulted, even on a body
that is also malformed JSON), and the failure surfaced to the error hook
is the signature failure, never a decode failure. -/
theorem c6_verify_before_decode (wh : Webhook) (hdr : HubHeaders) (body : List Nat)
    (decode decode' : DecodeFn) (fuel : Nat)
    (hsig : verifySignature wh hdr body = false) :
    handleWebhookPOST wh hdr (Except.ok body) decode fuel =
      handleWebhookPOST wh hdr (Except.ok body) decode' fuel ∧
    ∀ res : PostResult, handleWebhookPOST wh hdr (Except.ok body) decode fuel = some res →
      res.hookCall = some (none, ErrKind.invalidSignature) ∧ res.handlerCall = none := by
  constructor
  · simp [handleWebhookPOST, hsig]
  · intro res h
    simp only [handleWebhookPOST, hsig] at h
    cases hE : handleWebhookErrFuel wh none ErrKind.invalidSignature fuel with
    | none => rw [hE] at h; simp at h
    | some b =>
      rw [hE] at h
      simp at h
      rw [← h]
      exact ⟨rfl, rfl⟩

/-- Witness for claim C6: an unsigned request with a decode function
that would fail against one that would succeed; the runs coincide. -/
theorem c6_verify_before_decode_witness :
    handleWebhookPOST (NewWebhook "" []) { sig256 := "", sig1 := "" } (Except.ok [])
      (fun _ => (default, some ("bad"))) 1 =
    handleWebhookPOST (NewWebhook "" []) { sig256 := "", sig1 := "" } (Except.ok [])
      (fun _ => (default, none)) 1 :=
  (c6_verify_before_decode (NewWebhook "" []) { sig256 := "", sig1 := "" } []
    (fun _ => (default, some ("bad"))) (fun _ => (default, none)) 1 (by decide)).1

/-- Claim C7.  With a host-supplied error hook installed, every POST run
produces exactly one of: a single handler invocation with the decoded
envelope and neither a hook call nor a core write, or a single hook call
for the one failure that occurred, after which the core writes nothing
when the hook returned `true` and writes exactly the default response of
that failure class (400 read, 403 signature, 400 decode) when it
returned `false`. -/
theorem c7_one_hook_or_handler (wh : Webhook) (hdr : HubHeaders)
    (readResult : Except String (List Nat)) (decode : DecodeFn) (fuel : Nat)
    (f : Option WebhookRequest → ErrKind → Bool)
    (hf : wh.ErrHandler = ErrHandlerV.customH f) (hfuel : 0 < fuel) :
    ∃ res : PostResult, handleWebhookPOST wh hdr readResult decode fuel = some res ∧
      ((∃ req, res.handlerCall = some req ∧ res.hookCall = none ∧ res.write = none) ∨
       (∃ a e, res.hookCall = some (a, e) ∧ res.handlerCall = none ∧
         (f a e = true → res.write = none) ∧
         (f a e = false → res.write = some (defaultResponse e)))) := by
  obtain ⟨n, rfl⟩ : ∃ n, fuel = n + 1 := ⟨fuel - 1, by omega⟩
  have hrun : ∀ (r : Option WebhookRequest) (err : ErrKind),
      handleWebhookErrFuel wh r err (n+1) = some (f r err) := by
    intro r err
    simp [handleWebhookErrFuel, hf]
  cases readResult with
  | error e =>
    refine ⟨{ hookCall := some (none, ErrKind.readErr e), handlerCall := none,
              write := if f none (ErrKind.readErr e) then none
                       else some (defaultResponse (ErrKind.readErr e)) }, ?_, ?_⟩
    · simp [handleWebhookPOST, hrun]
    right
    refine ⟨none, ErrKind.readErr e, rfl, rfl, ?_, ?_⟩
    · intro hb; simp [hb]
    · intro hb; simp [hb]
  | ok body =>
    cases hv : verifySignature wh hdr body with
    | false =>
      refine ⟨{ hookCall := some (none, ErrKind.invalidSignature), handlerCall := none,
                write := if f none ErrKind.invalidSignature then none
                         else some (defaultResponse ErrKind.invalidSignature) }, ?_, ?_⟩
      · simp [handleWebhookPOST, hv, hrun]
      right
      refine ⟨none, ErrKind.invalidSignature, rfl, rfl, ?_, ?_⟩
      · intro hb; simp [hb]
      · intro hb; simp [hb]
    | true =>
      rcases hdec : decode body with ⟨request, derr⟩
      cases derr with
      | none =>
        refine ⟨{ hookCall := none, handlerCall := some request, write := none }, ?_, ?_⟩
        · simp [handleWebhookPOST, hv, hdec]
        · left; exact ⟨request, rfl, rfl, rfl⟩
      | some e =>
        refine ⟨{ hookCall := some (some request, ErrKind.unmarshalErr e), handlerCall := none,
                  write := if f (some request) (ErrKind.unmarshalErr e) then none
                           else some (defaultResponse (ErrKind.unmarshalErr e)) }, ?_, ?_⟩
        · simp [handleWebhookPOST, hv, hdec, hrun]
        · right
          refine ⟨some request, ErrKind.unmarshalErr e, rfl, rfl, ?_, ?_⟩
          · intro hb; simp [hb]
          · intro hb; simp [hb]

/-- The always-`false` host hook used by the witness of claim C7. -/
def c7HookFalse : Option WebhookRequest → ErrKind → Bool := fun _ _ => false

/-- A webhook with the host hook `c7HookFalse` installed. -/
def c7WitnessWebhook : Webhook :=
  { WebhookSecret := "", AppSecret := [], ErrHandler := ErrHandlerV.customH c7HookFalse }

/-- Witness for claim C7 on a failing body read. -/
theorem c7_one_hook_or_handler_witness :
    ∃ res : PostResult,
      handleWebhookPOST c7WitnessWebhook { sig256 := "", sig1 := "" }
        (Except.error "boom") (fun _ => (default, none)) 1 = some res ∧
      ((∃ req, res.handlerCall = some req ∧ res.hookCall = none ∧ res.write = none) ∨
       (∃ a e, res.hookCall = some (a, e) ∧ res.handlerCall = none ∧
         (c7HookFalse a e = true → res.write = none) ∧
         (c7HookFalse a e = false → res.write = some (defaultResponse e)))) :=
  c7_one_hook_or_handler c7WitnessWebhook { sig256 := "", sig1 := "" } (Except.error "boom")
    (fun _ => (default, none)) 1 c7HookFalse rfl (by decide)

/-- A message object whose `type` member is the string `s` and that has
no type-specific payload member. -/
def c8MessageJson (s : String) : Json :=
  Json.obj [("from", Json.str ("123")), ("id", Json.str ("m1")),
            ("timestamp", Json.str ("1000")), ("type", Json.str s)]

/-- The message that `c8MessageJson s` decodes to: the `type` string is
stored verbatim. -/
def c8DecodedMessage (s : String) : WebhookMessage :=
  { From := "123", ID := "m1", Timestamp := "1000", Type' := s, Context := none, Text := none,
    Image := none, Audio := none, Video := none, Document := none, Sticker := none,
    Location := none, Contacts := none, Button := none, Interactive := none, Order := none,
    System := none, Reaction := none, Referral := none, Errors := none }

/-- A full envelope document carrying exactly the one message
`c8MessageJson s`. -/
def c8EnvelopeJson (s : String) : Json :=
  Json.obj [("object", Json.str ("whatsapp_business_account")),
    ("entry", Json.arr [Json.obj [("id", Json.str ("1")),
      ("changes", Json.arr [Json.obj [("field", Json.str ("messages")),
        ("value", Json.obj [("messages", Json.arr [c8MessageJson s])])]])]])]

/-- The value component of the decoded `c8EnvelopeJson s`. -/
def c8DecodedValue (s : String) : WebhookValue :=
  { MessagingProduct := "", Metadata := { DisplayPhoneNumber := "", PhoneNumberID := "" },
    Contacts := none, Messages := some [c8DecodedMessage s], Statuses := none, Errors := none }

/-- The change component of the decoded `c8EnvelopeJson s`. -/
def c8DecodedChange (s : String) : WebhookChange :=
  { Value := c8DecodedValue s, Field := "messages" }

/-- The entry component of the decoded `c8EnvelopeJson s`. -/
def c8DecodedEntry (s : String) : WebhookEntry :=
  { ID := "1", Changes := some [c8DecodedChange s] }

/-- The envelope that `c8EnvelopeJson s` decodes to. -/
def c8DecodedRequest (s : String) : WebhookRequest :=
  { Object := "whatsapp_business_account", Entry := some [c8DecodedEntry s] }

set_option maxRecDepth 100000 in
/-- Claim C8, amended.  For every string `s` in the `type` member —
recognized or not — the envelope decodes successfully and contains the
message, whose type field carries the string `s` verbatim; no mapping to
the `unsupported`/`unknown` marker constants is performed by the decoder
(`Type` is a plain string-typed field). -/
theorem c8_unknown_type_decodes_verbatim (s : String) :
    decodeWebhookRequest (c8EnvelopeJson s) = Except.ok (c8DecodedRequest s) ∧
    (c8DecodedMessage s).Type' = s := by
  constructor
  · rfl
  · rfl

set_option maxRecDepth 100000 in
/-- Counterexample to claim C8 as stated.  Decoding the envelope whose
message has `type` equal to `some_future_type` succeeds, but the decoded
message is typed with that raw string, not with the
unsupported/unknown marker the claim asserts. -/
theorem c8_not_marker_counterexample :
    decodeWebhookRequest (c8EnvelopeJson ("some_future_type")) =
      Except.ok (c8DecodedRequest ("some_future_type")) ∧
    (c8DecodedMessage ("some_future_type")).Type' ≠ MessageTypeUnsupported ∧
    (c8DecodedMessage ("some_future_type")).Type' ≠ MessageTypeUnknown := by
  refine ⟨rfl, by decide, by decide⟩

/-- Claim C9.  Decoder presence fidelity: in every successfully decoded
`WebhookValue` object, an absent `statuses` member decodes to the nil
slice `none` and a present `"statuses": []` member decodes to the
present-and-empty `some []`, two distinguishable states; likewise for
the `messages`, `errors` and `contacts` lists. -/
theorem c9_presence_fidelity (o : List (String × Json)) (v : WebhookValue)
    (h : decodeWebhookValue (Json.obj o) = Except.ok v) :
    ((getKey o ("statuses") = none → v.Statuses = none) ∧
     (getKey o ("statuses") = some (Json.arr []) → v.Statuses = some [])) ∧
    ((getKey o ("messages") = none → v.Messages = none) ∧
     (getKey o ("messages") = some (Json.arr []) → v.Messages = some [])) ∧
    ((getKey o ("errors") = none → v.Errors = none) ∧
     (getKey o ("errors") = some (Json.arr []) → v.Errors = some [])) ∧
    ((getKey o ("contacts") = none → v.Contacts = none) ∧
     (getKey o ("contacts") = some (Json.arr []) → v.Contacts = some [])) ∧
    (some [] : Option (List WebhookStatus)) ≠ none := by
  obtain ⟨hco, hms, hst, her⟩ := decodeValue_fields o v h
  refine ⟨⟨?_, ?_⟩, ⟨?_, ?_⟩, ⟨?_, ?_⟩, ⟨?_, ?_⟩, by simp⟩
  · intro hk; rw [hk, decListField_none] at hst; simpa using hst.symm
  · intro hk; rw [hk, decListField_emptyArr] at hst; simpa using hst.symm
  · intro hk; rw [hk, decListField_none] at hms; simpa using hms.symm
  · intro hk; rw [hk, decListField_emptyArr] at hms; simpa using hms.symm
  · intro hk; rw [hk, decListField_none] at her; simpa using her.symm
  · intro hk; rw [hk, decListField_emptyArr] at her; simpa using her.symm
  · intro hk; rw [hk, decListField_none] at hco; simpa using hco.symm
  · intro hk; rw [hk, decListField_emptyArr] at hco; simpa using hco.symm

/-- The value that `{"statuses": []}` decodes to. -/
def c9WitnessValue : WebhookValue :=
  { MessagingProduct := "", Metadata := { DisplayPhoneNumber := "", PhoneNumberID := "" },
    Contacts := none, Messages := none, Statuses := some [], Errors := none }

/-- Witness for claim C9: the object with a present-and-empty `statuses`
member decodes to `Statuses = some []`. -/
theorem c9_presence_fidelity_witness :
    decodeWebhookValue (Json.obj [("statuses", Json.arr [])]) = Except.ok c9WitnessValue ∧
    c9WitnessValue.Statuses = some [] := by
  have h : decodeWebhookValue (Json.obj [("statuses", Json.arr [])]) =
      Except.ok c9WitnessValue := rfl
  exact ⟨h, (c9_presence_fidelity _ _ h).1.2 rfl⟩

/-- Claim C10.  When the `X-Hub-Signature-256` header value is the empty
string (absent or empty-valued — `Header.Get` reports both as `""`), the
verifier falls back to the legacy `X-Hub-Signature` header: the verdict
equals the SHA-1 check of that header, and in particular a valid SHA-1
signature verifies `true` alongside the empty SHA-256 header. -/
theorem c10_sha1_fallback (wh : Webhook) (body : List Nat) (s1 : String) :
    verifySignature wh { sig256 := "", sig1 := s1 } body =
      verifySignatureImpl wh s1 "sha1=" body hmacSha1Hex ∧
    (s1 = "sha1=" ++ hmacSha1Hex wh.AppSecret body →
      verifySignature wh { sig256 := "", sig1 := s1 } body = true) := by
  have h1 : verifySignature wh { sig256 := "", sig1 := s1 } body =
      verifySignatureImpl wh s1 "sha1=" body hmacSha1Hex := by
    by_cases hs : s1 = ""
    · subst hs
      simp [verifySignature, verifySignatureImpl, goCutPre]
    · simp [verifySignature, hs]
  refine ⟨h1, ?_⟩
  intro he
  rw [h1, he]
  exact impl_roundtrip wh _ body hmacSha1Hex

/-- Witness for claim C10: a correct SHA-1 signature next to an empty
SHA-256 header verifies `true`. -/
theorem c10_sha1_fallback_witness :
    verifySignature (NewWebhook "" [])
      { sig256 := "", sig1 := "sha1=" ++ hmacSha1Hex [] [] } [] = true :=
  (c10_sha1_fallback (NewWebhook "" []) [] ("sha1=" ++ hmacSha1Hex [] [])).2 rfl
